import Mathlib

/-!
Shallow embedding of `src/script.js` (client-side page behaviour: image
optimization, modal gallery, accordion) and verification of its
specification claims.

JavaScript numbers are modelled as rationals (`ℚ`), with `Option` used
where a value can be `NaN` or `undefined`.  `Math.round` is Mathlib's
`round` (both are half-up: `round x = ⌊x + 1/2⌋`).  The JS remainder
operator `%` is truncated remainder (`Int.tmod`), and `x % 0` is `NaN`,
modelled as `none`.
-/

namespace Script

/-- Embedding of `calculateOptimalSize(originalWidth, originalHeight, maxWidth)`
(src/script.js lines 39-49).  If `originalWidth <= maxWidth` the original
dimensions are returned unchanged; otherwise `ratio = originalWidth/originalHeight`,
`width = maxWidth`, `height = Math.round(width / ratio)`. -/
def calculateOptimalSize (originalWidth originalHeight maxWidth : ℚ) : ℚ × ℚ :=
  if originalWidth ≤ maxWidth then
    (originalWidth, originalHeight)
  else
    let ratio : ℚ := originalWidth / originalHeight
    let width : ℚ := maxWidth
    let height : ℤ := round (width / ratio)
    (width, (height : ℚ))

/-- Outcome of the browser's image decode for a given `src`: either the
image loads with natural dimensions `width × height` (the `img.onload`
path) or decoding fails (the `img.onerror` path).  The decoder itself is
an external browser primitive. -/
inductive DecodeOutcome where
  | loaded (width height : ℚ)
  | failed
  deriving DecidableEq

/-- Embedding of `optimizeImage(src, maxWidth, quality)` (src/script.js
lines 2-36).  The function wraps its work in `new Promise((resolve) => ...)`
whose executor only ever calls `resolve`: the promise outcome is modelled
as `Except String String`, with `Except.error` the (never taken) rejection.
`canvas.toDataURL` is an external browser primitive, passed in as the
abstract encoder `encode` applied to the source, the computed canvas
dimensions and the quality.  On decode failure the promise resolves with
the original `src`. -/
def optimizeImage (encode : String → ℚ → ℚ → ℚ → String)
    (src : String) (maxWidth : ℚ) (quality : ℚ)
    (outcome : DecodeOutcome) : Except String String :=
  match outcome with
  | DecodeOutcome.loaded w h =>
      let sz := calculateOptimalSize w h maxWidth
      Except.ok (encode src sz.1 sz.2 quality)
  | DecodeOutcome.failed => Except.ok src

/-- C1: For every `originalWidth > maxWidth`, `calculateOptimalSize` returns
width `maxWidth` and height `round(maxWidth * originalHeight / originalWidth)`
with half-up rounding (`⌊· + 1/2⌋`) on `.5` boundaries. -/
theorem calculateOptimalSize_downscales
    (originalWidth originalHeight maxWidth : ℚ)
    (h : maxWidth < originalWidth) :
    calculateOptimalSize originalWidth originalHeight maxWidth =
      (maxWidth, ((⌊maxWidth * originalHeight / originalWidth + 1 / 2⌋ : ℤ) : ℚ)) := by
  unfold calculateOptimalSize
  rw [if_neg (not_le.mpr h)]
  have hq : maxWidth / (originalWidth / originalHeight) =
      maxWidth * originalHeight / originalWidth := div_div_eq_mul_div _ _ _
  simp only [hq, round_eq]

/-- Witness for C1 at the spec's scenario: `computeSize(1600, 900, 800) = (800, 450)`. -/
theorem calculateOptimalSize_downscales_witness :
    (800 : ℚ) < 1600 ∧ calculateOptimalSize 1600 900 800 = (800, 450) := by
  refine ⟨by norm_num, ?_⟩
  rw [calculateOptimalSize_downscales 1600 900 800 (by norm_num)]
  norm_num

/-- C2: For every `originalWidth ≤ maxWidth`, `calculateOptimalSize`
returns the original `(width, height)` pair unchanged — it never upscales. -/
theorem calculateOptimalSize_no_upscale
    (originalWidth originalHeight maxWidth : ℚ)
    (h : originalWidth ≤ maxWidth) :
    calculateOptimalSize originalWidth originalHeight maxWidth =
      (originalWidth, originalHeight) := by
  unfold calculateOptimalSize
  rw [if_pos h]

/-- Witness for C2 at the spec's scenario: `computeSize(600, 400, 800) = (600, 400)`. -/
theorem calculateOptimalSize_no_upscale_witness :
    (600 : ℚ) ≤ 800 ∧ calculateOptimalSize 600 400 800 = (600, 400) :=
  ⟨by norm_num, calculateOptimalSize_no_upscale 600 400 800 (by norm_num)⟩

/-- C3: For every input, `optimizeImage` resolves and never rejects; on
decode failure it resolves with the original source string unchanged. -/
theorem optimizeImage_never_rejects :
    ∀ (encode : String → ℚ → ℚ → ℚ → String)
      (src : String) (maxWidth quality : ℚ) (outcome : DecodeOutcome),
      (∃ payload, optimizeImage encode src maxWidth quality outcome =
        Except.ok payload) ∧
      (∀ e, optimizeImage encode src maxWidth quality outcome ≠ Except.error e) ∧
      optimizeImage encode src maxWidth quality DecodeOutcome.failed =
        Except.ok src := by
  intro encode src maxWidth quality outcome
  refine ⟨?_, ?_, rfl⟩
  · cases outcome with
    | loaded w h => exact ⟨_, rfl⟩
    | failed => exact ⟨src, rfl⟩
  · intro e hcontra
    cases outcome with
    | loaded w h => exact Except.noConfusion hcontra
    | failed => exact Except.noConfusion hcontra

/-- JavaScript's remainder operator `%` on numbers: truncated remainder
(sign of the dividend, `Int.tmod`), with division by zero producing `NaN`
(modelled as `none`). -/
def jsMod (a b : ℤ) : Option ℤ :=
  if b = 0 then none else some (Int.tmod a b)

/-- Embedding of the static `galleryData` object (src/script.js lines
127-149): three named collections of five image paths each; any other key
reads as `undefined` (`none`). -/
def galleryData (houseType : String) : Option (List String) :=
  if houseType = "sakura" then
    some ["imgs/sharehouses/sakura/exterior.jpg",
          "imgs/sharehouses/sakura/living.jpg",
          "imgs/sharehouses/sakura/garden.jpg",
          "imgs/sharehouses/sakura/room.jpg",
          "imgs/sharehouses/sakura/tea-room.jpg"]
  else if houseType = "bamboo" then
    some ["imgs/sharehouses/bamboo/exterior.jpg",
          "imgs/sharehouses/bamboo/irori.jpg",
          "imgs/sharehouses/bamboo/bamboo-garden.jpg",
          "imgs/sharehouses/bamboo/room.jpg",
          "imgs/sharehouses/bamboo/study.jpg"]
  else if houseType = "moon" then
    some ["imgs/sharehouses/moon/exterior.jpg",
          "imgs/sharehouses/moon/moon-deck.jpg",
          "imgs/sharehouses/moon/kitchen.jpg",
          "imgs/sharehouses/moon/room.jpg",
          "imgs/sharehouses/moon/meditation.jpg"]
  else
    none

/-- The page state touched by the gallery controller: the two globals
`currentGallery` (an array, or `undefined` after an unknown-key lookup)
and `currentImageIndex` (a JS number, `none` = `NaN`), plus the gallery
modal's `style.display`, `document.body.style.overflow`, and whether the
`keydown` listener is registered. -/
structure PageState where
  currentGallery : Option (List String)
  currentImageIndex : Option ℤ
  modalDisplay : String
  bodyOverflow : String
  keydownRegistered : Bool
  deriving DecidableEq

/-- The initial values of the globals (src/script.js lines 151-152:
`let currentGallery = []; let currentImageIndex = 0;`) together with the
page's initial modal/scroll/listener state. -/
def initialPageState : PageState :=
  { currentGallery := some []
    currentImageIndex := some 0
    modalDisplay := "none"
    bodyOverflow := "auto"
    keydownRegistered := false }

/-- JavaScript array indexing `l[idx]`: `undefined` (`none`) when the
index is `NaN`, negative or out of range. -/
def jsIndex (l : List String) (idx : Option ℤ) : Option String :=
  match idx with
  | none => none
  | some i =>
      if h : 0 ≤ i ∧ i.toNat < l.length then some (l.get ⟨i.toNat, h.2⟩)
      else none

/-- Embedding of `displayOptimizedImage()` (src/script.js lines 182-210)
projected onto the modelled state: it reads
`currentGallery[currentImageIndex]` — throwing a `TypeError` (modelled as
`Except.error`) when `currentGallery` is `undefined`, before any DOM
update — and otherwise renders that source (possibly `undefined`) into
the `gallery-images` element, which is outside the modelled state; with a
defined collection the routine's `try` block never throws, since
`optimizeImage` always resolves. -/
def displayOptimizedImage (s : PageState) : Except String (Option String) :=
  match s.currentGallery with
  | none => Except.error "TypeError: cannot index undefined collection"
  | some l => Except.ok (jsIndex l s.currentImageIndex)

/-- Embedding of `openGallery(houseType)` (src/script.js lines 155-169):
sets `currentGallery` to the `galleryData` lookup and the index to 0, then
awaits `displayOptimizedImage()`; only after that resolves does it show
the modal, disable page scroll and register the keydown handler.  The
second component is the async function's rejection, if any: a thrown
`TypeError` leaves the modal and scroll untouched. -/
def openGallery (houseType : String) (s : PageState) : PageState × Option String :=
  let s1 : PageState :=
    { s with currentGallery := galleryData houseType, currentImageIndex := some 0 }
  match displayOptimizedImage s1 with
  | Except.error e => (s1, some e)
  | Except.ok _ =>
      ({ s1 with modalDisplay := "block", bodyOverflow := "hidden",
                 keydownRegistered := true }, none)

/-- Embedding of `closeGallery()` (src/script.js lines 172-179): hides the
modal, re-enables page scroll and removes the keydown listener.  The two
globals are not touched. -/
def closeGallery (s : PageState) : PageState :=
  { s with modalDisplay := "none", bodyOverflow := "auto",
           keydownRegistered := false }

/-- Embedding of `prevImage()` (src/script.js lines 213-216):
`currentImageIndex = (currentImageIndex - 1 + currentGallery.length) % currentGallery.length`
followed by `displayOptimizedImage()`.  Reading `.length` of an
`undefined` collection throws (second component). -/
def prevImage (s : PageState) : PageState × Option String :=
  match s.currentGallery with
  | none => (s, some "TypeError: cannot read length of undefined")
  | some l =>
      let s1 : PageState :=
        { s with currentImageIndex :=
            s.currentImageIndex.bind fun i => jsMod (i - 1 + l.length) l.length }
      match displayOptimizedImage s1 with
      | Except.error e => (s1, some e)
      | Except.ok _ => (s1, none)

/-- Embedding of `nextImage()` (src/script.js lines 219-222):
`currentImageIndex = (currentImageIndex + 1) % currentGallery.length`
followed by `displayOptimizedImage()`. -/
def nextImage (s : PageState) : PageState × Option String :=
  match s.currentGallery with
  | none => (s, some "TypeError: cannot read length of undefined")
  | some l =>
      let s1 : PageState :=
        { s with currentImageIndex :=
            s.currentImageIndex.bind fun i => jsMod (i + 1) l.length }
      match displayOptimizedImage s1 with
      | Except.error e => (s1, some e)
      | Except.ok _ => (s1, none)

/-- Embedding of `handleKeyPress(event)` (src/script.js lines 225-237):
a `switch` on `event.key` dispatching to `closeGallery`, `prevImage`,
`nextImage`, with no default case.  The fire-and-forget async calls'
rejections surface in the second component. -/
def handleKeyPress (key : String) (s : PageState) : PageState × Option String :=
  if key = "Escape" then (closeGallery s, none)
  else if key = "ArrowLeft" then prevImage s
  else if key = "ArrowRight" then nextImage s
  else (s, none)

/-- A concrete open-gallery page state used to instantiate the navigation
and key-dispatch theorems (the spec's three-image scenario). -/
def demoState : PageState :=
  { currentGallery := some ["a.jpg", "b.jpg", "c.jpg"]
    currentImageIndex := some 2
    modalDisplay := "block"
    bodyOverflow := "hidden"
    keydownRegistered := true }

/-- C4: For a non-empty collection of length `n` and a current index in
`[0, n)`, `nextImage` sets the index to `(i + 1) mod n` and `prevImage` to
`(i - 1 + n) mod n`; both results stay in `[0, n)` (never negative);
`next` from the last index gives `0` and `prev` from `0` gives `n - 1`. -/
theorem gallery_nav_wraparound (s : PageState) (l : List String) (i : ℤ)
    (hg : s.currentGallery = some l) (hidx : s.currentImageIndex = some i)
    (h0 : 0 ≤ i) (hlt : i < (l.length : ℤ)) :
    (nextImage s).1.currentImageIndex = some ((i + 1) % (l.length : ℤ)) ∧
    (prevImage s).1.currentImageIndex =
      some ((i - 1 + (l.length : ℤ)) % (l.length : ℤ)) ∧
    (0 ≤ (i + 1) % (l.length : ℤ) ∧ (i + 1) % (l.length : ℤ) < (l.length : ℤ)) ∧
    (0 ≤ (i - 1 + (l.length : ℤ)) % (l.length : ℤ) ∧
      (i - 1 + (l.length : ℤ)) % (l.length : ℤ) < (l.length : ℤ)) ∧
    (i = (l.length : ℤ) - 1 → (nextImage s).1.currentImageIndex = some 0) ∧
    (i = 0 → (prevImage s).1.currentImageIndex = some ((l.length : ℤ) - 1)) := by
  have hpos : (0 : ℤ) < (l.length : ℤ) := lt_of_le_of_lt h0 hlt
  have hne : (l.length : ℤ) ≠ 0 := ne_of_gt hpos
  have hnext : (nextImage s).1.currentImageIndex =
      some ((i + 1) % (l.length : ℤ)) := by
    have ht : Int.tmod (i + 1) (l.length : ℤ) = (i + 1) % (l.length : ℤ) :=
      Int.tmod_eq_emod (by omega) (by omega)
    simp [nextImage, hg, hidx, jsMod, hne, displayOptimizedImage, ht]
  have hprev : (prevImage s).1.currentImageIndex =
      some ((i - 1 + (l.length : ℤ)) % (l.length : ℤ)) := by
    have ht : Int.tmod (i - 1 + (l.length : ℤ)) (l.length : ℤ) =
        (i - 1 + (l.length : ℤ)) % (l.length : ℤ) :=
      Int.tmod_eq_emod (by omega) (by omega)
    simp [prevImage, hg, hidx, jsMod, hne, displayOptimizedImage, ht]
  refine ⟨hnext, hprev, ⟨Int.emod_nonneg _ hne, Int.emod_lt_of_pos _ hpos⟩,
    ⟨Int.emod_nonneg _ hne, Int.emod_lt_of_pos _ hpos⟩, ?_, ?_⟩
  · intro hlast
    rw [hnext, hlast]
    simp
  · intro hfirst
    rw [hprev, hfirst]
    have : (0 - 1 + (l.length : ℤ)) % (l.length : ℤ) = (l.length : ℤ) - 1 :=
      Int.emod_eq_of_lt (by omega) (by omega)
    rw [this]

/-- Witness for C4 on the spec's scenario collection `["a.jpg","b.jpg","c.jpg"]`
with index 2: `next` wraps to 0 and `prev` moves to 1. -/
theorem gallery_nav_wraparound_witness :
    demoState.currentGallery = some ["a.jpg", "b.jpg", "c.jpg"] ∧
    demoState.currentImageIndex = some 2 ∧
    (0 : ℤ) ≤ 2 ∧ (2 : ℤ) < ((["a.jpg", "b.jpg", "c.jpg"] : List String).length : ℤ) ∧
    (nextImage demoState).1.currentImageIndex = some 0 ∧
    (prevImage demoState).1.currentImageIndex = some 1 := by
  have h := gallery_nav_wraparound demoState ["a.jpg", "b.jpg", "c.jpg"] 2
    rfl rfl (by norm_num) (by norm_num)
  refine ⟨rfl, rfl, by norm_num, by norm_num, ?_, ?_⟩
  · rw [h.1]; norm_num
  · rw [h.2.1]; norm_num

/-- C6: While the gallery is open, `handleKeyPress` dispatches `Escape` to
`closeGallery`, `ArrowLeft` to `prevImage`, `ArrowRight` to `nextImage`,
and every other key leaves the whole page state unchanged. -/
theorem handleKeyPress_dispatch (s : PageState) (hopen : s.modalDisplay = "block") :
    handleKeyPress "Escape" s = (closeGallery s, none) ∧
    handleKeyPress "ArrowLeft" s = prevImage s ∧
    handleKeyPress "ArrowRight" s = nextImage s ∧
    (∀ key, key ≠ "Escape" → key ≠ "ArrowLeft" → key ≠ "ArrowRight" →
      handleKeyPress key s = (s, none)) := by
  refine ⟨rfl, by simp [handleKeyPress], by simp [handleKeyPress], ?_⟩
  intro key h1 h2 h3
  simp [handleKeyPress, h1, h2, h3]

/-- Witness for C6 at the concrete open state: `Escape` closes, and the
unrelated key `"a"` changes nothing. -/
theorem handleKeyPress_dispatch_witness :
    demoState.modalDisplay = "block" ∧
    handleKeyPress "Escape" demoState = (closeGallery demoState, none) ∧
    handleKeyPress "a" demoState = (demoState, none) := by
  have h := handleKeyPress_dispatch demoState rfl
  exact ⟨rfl, h.1, h.2.2.2 "a" (by decide) (by decide) (by decide)⟩

/-- C7: `closeGallery` hides the modal, restores page scroll and
unregisters the key-press handler, while leaving the current collection
and index unchanged. -/
theorem closeGallery_frame (s : PageState) :
    (closeGallery s).modalDisplay = "none" ∧
    (closeGallery s).bodyOverflow = "auto" ∧
    (closeGallery s).keydownRegistered = false ∧
    (closeGallery s).currentGallery = s.currentGallery ∧
    (closeGallery s).currentImageIndex = s.currentImageIndex :=
  ⟨rfl, rfl, rfl, rfl, rfl⟩

/-- C8: With an empty collection (as in the initial state, where
`currentGallery = []` and `currentImageIndex = 0`), `prevImage` and
`nextImage` compute the index modulo zero, producing `NaN` (`none`) —
not a valid position — so the index-validity invariant needs a non-empty
collection. -/
theorem empty_gallery_nan (s : PageState) (i : ℤ)
    (hg : s.currentGallery = some []) (hidx : s.currentImageIndex = some i) :
    (nextImage s).1.currentImageIndex = none ∧
    (prevImage s).1.currentImageIndex = none ∧
    initialPageState.currentGallery = some [] ∧
    initialPageState.currentImageIndex = some 0 := by
  refine ⟨?_, ?_, rfl, rfl⟩ <;>
    simp [nextImage, prevImage, hg, hidx, jsMod, displayOptimizedImage, jsIndex]

/-- Witness for C8 at the initial page state (before any `openGallery`). -/
theorem empty_gallery_nan_witness :
    initialPageState.currentGallery = some [] ∧
    initialPageState.currentImageIndex = some 0 ∧
    (nextImage initialPageState).1.currentImageIndex = none ∧
    (prevImage initialPageState).1.currentImageIndex = none := by
  have h := empty_gallery_nan initialPageState 0 rfl rfl
  exact ⟨rfl, rfl, h.1, h.2.1⟩

/-- C9: For a key that is not a configured gallery name, `openGallery`
sets `currentGallery` to `undefined` and its promise rejects when
`displayOptimizedImage` indexes the missing collection, before the modal
is shown or scroll disabled: modal display, body overflow and the keydown
registration are all left as they were. -/
theorem openGallery_unknown_key (houseType : String) (s : PageState)
    (h : galleryData houseType = none) :
    (openGallery houseType s).2 =
      some "TypeError: cannot index undefined collection" ∧
    (openGallery houseType s).1.currentGallery = none ∧
    (openGallery houseType s).1.modalDisplay = s.modalDisplay ∧
    (openGallery houseType s).1.bodyOverflow = s.bodyOverflow ∧
    (openGallery houseType s).1.keydownRegistered = s.keydownRegistered := by
  refine ⟨?_, ?_, ?_, ?_, ?_⟩ <;> simp [openGallery, displayOptimizedImage, h]

/-- Witness for C9 at the unknown key `"zen"` on the initial page state:
the promise rejects and the modal stays hidden. -/
theorem openGallery_unknown_key_witness :
    galleryData "zen" = none ∧
    (openGallery "zen" initialPageState).2 =
      some "TypeError: cannot index undefined collection" ∧
    (openGallery "zen" initialPageState).1.modalDisplay = "none" := by
  have h := openGallery_unknown_key "zen" initialPageState (by decide)
  exact ⟨by decide, h.1, h.2.2.1.trans rfl⟩

/-- The per-item accordion state that `toggleAccordion` reads and writes:
the item's `active` class, its content's `active` class, and the icon
glyph (`'+'` closed, `'×'` open). -/
structure AccordionItem where
  active : Bool
  contentActive : Bool
  icon : Char
  deriving DecidableEq

/-- The fully collapsed rendering of one item: no `active` classes, icon `'+'`. -/
def closedItem : AccordionItem := ⟨false, false, '+'⟩

/-- The expanded rendering of one item: both `active` classes, icon `'×'`. -/
def openItem : AccordionItem := ⟨true, true, '×'⟩

/-- Embedding of `toggleAccordion(index)` (src/script.js lines 102-124):
record whether the clicked item is currently active, collapse every item
(remove both `active` classes, icon `'+'`), and, when the clicked item was
not previously active, expand it (add both `active` classes, icon `'×'`). -/
def toggleAccordion (items : List AccordionItem) (index : ℕ) : List AccordionItem :=
  let isActive := (items.getD index closedItem).active
  let collapsed := items.map fun _ => closedItem
  if isActive then collapsed else collapsed.set index openItem

/-- All accordion items are collapsed. -/
def allCollapsed (items : List AccordionItem) : Bool :=
  items.all fun it => !it.active

/-- Exactly the item at position `j` is expanded. -/
def onlyExpandedAt (items : List AccordionItem) (j : ℕ) : Bool :=
  (List.range items.length).all fun k =>
    (items.getD k closedItem).active == decide (k = j)

/-- C5 counterexample: on the one-item state whose item is already
expanded, `toggle(0)` twice does not give the fully-collapsed state — the
first click collapses the item and the second expands it again. -/
theorem toggleAccordion_twice_counterexample :
    (0 : ℕ) < ([openItem] : List AccordionItem).length ∧
    toggleAccordion (toggleAccordion [openItem] 0) 0 = [openItem] ∧
    allCollapsed (toggleAccordion (toggleAccordion [openItem] 0) 0) = false := by
  decide

/-- Value of the collapsed-then-set list at any position. -/
theorem set_open_getD (l : List AccordionItem) (i k : ℕ) :
    ((l.map fun _ => closedItem).set i openItem).getD k closedItem =
      if i = k ∧ k < l.length then openItem else closedItem := by
  rw [List.getD_eq_getElem?_getD, List.map_const', List.getElem?_set,
    List.getElem?_replicate]
  simp only [List.length_replicate]
  by_cases hik : i = k
  · subst hik
    by_cases hk : i < l.length <;> simp [hk]
  · by_cases hk : k < l.length <;> simp [hik, hk]

/-- The all-collapsed list reads `closedItem` at every position. -/
theorem collapsed_getD (l : List AccordionItem) (k : ℕ) :
    (l.map fun _ => closedItem).getD k closedItem = closedItem := by
  rw [List.getD_eq_getElem?_getD, List.map_const', List.getElem?_replicate]
  split <;> rfl

/-- A mapped-to-`closedItem` list is fully collapsed. -/
theorem allCollapsed_map (l : List AccordionItem) :
    allCollapsed (l.map fun _ => closedItem) = true := by
  simp [allCollapsed, List.all_map, Function.comp, closedItem]

/-- `toggleAccordion` preserves the number of items. -/
theorem toggleAccordion_length (items : List AccordionItem) (i : ℕ) :
    (toggleAccordion items i).length = items.length := by
  simp only [toggleAccordion]
  split <;> simp

/-- Clicking an already-expanded item collapses everything. -/
theorem toggleAccordion_of_active (l : List AccordionItem) (i : ℕ)
    (h : (l.getD i closedItem).active = true) :
    toggleAccordion l i = l.map fun _ => closedItem := by
  simp only [List.getD_eq_getElem?_getD] at h
  simp [toggleAccordion, h]

/-- Clicking a collapsed item collapses everything, then expands it. -/
theorem toggleAccordion_of_inactive (l : List AccordionItem) (i : ℕ)
    (h : (l.getD i closedItem).active = false) :
    toggleAccordion l i = (l.map fun _ => closedItem).set i openItem := by
  simp only [List.getD_eq_getElem?_getD] at h
  simp [toggleAccordion, h]

/-- C5 (amended): for valid indices `i, j`: if item `i` is not currently
expanded, `toggle(i)` twice yields the fully-collapsed state; `toggle(i)`
then `toggle(j)` with `j ≠ i` leaves exactly item `j` expanded; and after
any single toggle either everything is collapsed or exactly the clicked
item is expanded (at most one item expanded). -/
theorem toggleAccordion_amended (items : List AccordionItem) (i j : ℕ)
    (hi : i < items.length) (hj : j < items.length) :
    ((items.getD i closedItem).active = false →
      allCollapsed (toggleAccordion (toggleAccordion items i) i) = true) ∧
    (j ≠ i → onlyExpandedAt (toggleAccordion (toggleAccordion items i) j) j = true) ∧
    (allCollapsed (toggleAccordion items i) = true ∨
      onlyExpandedAt (toggleAccordion items i) i = true) := by
  refine ⟨?_, ?_, ?_⟩
  · intro hnot
    have h1 := toggleAccordion_of_inactive items i hnot
    have h2 : ((toggleAccordion items i).getD i closedItem).active = true := by
      rw [h1, set_open_getD]
      simp [hi, openItem]
    rw [toggleAccordion_of_active _ i h2]
    exact allCollapsed_map _
  · intro hji
    have hlen1 := toggleAccordion_length items i
    have hjne : ((toggleAccordion items i).getD j closedItem).active = false := by
      cases hA : (items.getD i closedItem).active with
      | false =>
          rw [toggleAccordion_of_inactive items i hA, set_open_getD]
          simp [Ne.symm hji, closedItem]
      | true =>
          rw [toggleAccordion_of_active items i hA, collapsed_getD]
          rfl
    rw [toggleAccordion_of_inactive _ j hjne]
    simp only [onlyExpandedAt]
    rw [List.all_eq_true]
    intro k hk
    have hk' : k < items.length := by
      have hm := List.mem_range.mp hk
      simpa [hlen1] using hm
    rw [set_open_getD]
    rcases eq_or_ne k j with rfl | hkj
    · simp [hlen1, hk', openItem]
    · simp [hkj, Ne.symm hkj, closedItem]
  · cases hA : (items.getD i closedItem).active with
    | true =>
        rw [toggleAccordion_of_active items i hA]
        exact Or.inl (allCollapsed_map _)
    | false =>
        refine Or.inr ?_
        rw [toggleAccordion_of_inactive items i hA]
        simp only [onlyExpandedAt]
        rw [List.all_eq_true]
        intro k hk
        have hk' : k < items.length := by
          have hm := List.mem_range.mp hk
          simpa using hm
        rw [set_open_getD]
        rcases eq_or_ne k i with rfl | hki
        · simp [hk', openItem]
        · simp [hki, Ne.symm hki, closedItem]

/-- Witness for C5 (amended) on the two-item fully-collapsed state with
`i = 0`, `j = 1`. -/
theorem toggleAccordion_amended_witness :
    (0 : ℕ) < ([closedItem, closedItem] : List AccordionItem).length ∧
    (1 : ℕ) < ([closedItem, closedItem] : List AccordionItem).length ∧
    (([closedItem, closedItem] : List AccordionItem).getD 0 closedItem).active = false ∧
    allCollapsed (toggleAccordion (toggleAccordion [closedItem, closedItem] 0) 0) = true ∧
    onlyExpandedAt (toggleAccordion (toggleAccordion [closedItem, closedItem] 0) 1) 1 = true := by
  have h := toggleAccordion_amended [closedItem, closedItem] 0 1 (by decide) (by decide)
  exact ⟨by decide, by decide, by decide, h.1 (by decide), h.2.1 (by decide)⟩

/-- JavaScript truthiness of a dataset attribute (a string or
`undefined`): `undefined` and the empty string are falsy; every other
string — including `"0"` — is truthy. -/
def jsTruthy (v : Option String) : Bool :=
  match v with
  | none => false
  | some s => !(s == "")

/-- Value of a list of decimal digit characters read left to right. -/
def digitsVal (ds : List Char) : ℕ :=
  ds.foldl (fun acc c => 10 * acc + (c.toNat - Char.toNat '0')) 0

/-- Model of JavaScript `parseInt` with the default radix 10: skip
leading whitespace, accept an optional sign, read the longest prefix of
decimal digits; `NaN` (`none`) when there are no digits. -/
def jsParseInt (s : String) : Option ℤ :=
  let cs := s.data.dropWhile fun c => c.isWhitespace
  let core : List Char → Option ℤ := fun cs =>
    let ds := cs.takeWhile Char.isDigit
    if ds.isEmpty then none else some ((digitsVal ds : ℕ) : ℤ)
  match cs with
  | '-' :: rest => (core rest).map Int.neg
  | '+' :: rest => core rest
  | _ => core cs

/-- Model of JavaScript `parseFloat` for plain decimal literals: skip
leading whitespace, accept an optional sign, read integer digits and an
optional fractional part; `NaN` (`none`) when neither part has digits. -/
def jsParseFloat (s : String) : Option ℚ :=
  let cs := s.data.dropWhile fun c => c.isWhitespace
  let core : List Char → Option ℚ := fun cs =>
    let intDigits := cs.takeWhile Char.isDigit
    let rest := cs.drop intDigits.length
    let fracDigits :=
      match rest with
      | '.' :: r => r.takeWhile Char.isDigit
      | _ => []
    if intDigits.isEmpty && fracDigits.isEmpty then none
    else some ((digitsVal intDigits : ℚ) +
      (digitsVal fracDigits : ℚ) / 10 ^ fracDigits.length)
  match cs with
  | '-' :: rest => (core rest).map Neg.neg
  | '+' :: rest => core rest
  | _ => core cs

/-- Embedding of the max-width override resolution in
`loadOptimizedImage` (src/script.js line 73 with line 81):
`const maxWidth = imgElement.dataset.maxWidth || 800` followed by
`parseInt(maxWidth)`.  The attribute is kept whenever it is truthy;
otherwise `||` yields the number `800`, which `parseInt` coerces back
from its decimal string. -/
def loadMaxWidth (dataMaxWidth : Option String) : Option ℤ :=
  jsParseInt (if jsTruthy dataMaxWidth then dataMaxWidth.getD "" else "800")

/-- Embedding of the quality override resolution in `loadOptimizedImage`
(src/script.js line 74 with line 81):
`const quality = imgElement.dataset.quality || 0.8` followed by
`parseFloat(quality)`. -/
def loadQuality (dataQuality : Option String) : Option ℚ :=
  jsParseFloat (if jsTruthy dataQuality then dataQuality.getD "" else "0.8")

/-- C10 counterexample: a `"0"` attribute is a non-empty string, hence
truthy in JavaScript, so it does not fall back to the defaults: the
resolved max width is 0 (not 800) and the resolved quality is 0 (not
0.8) — a zero override is expressible. -/
theorem zero_override_counterexample :
    loadMaxWidth (some "0") = some 0 ∧
    loadMaxWidth (some "0") ≠ some 800 ∧
    loadQuality (some "0") = some 0 ∧
    loadQuality (some "0") ≠ some (4 / 5 : ℚ) := by
  refine ⟨by decide, by decide, ?_, ?_⟩
  · simp [loadQuality, jsTruthy, jsParseFloat, digitsVal]
  · simp [loadQuality, jsTruthy, jsParseFloat, digitsVal]
    norm_num

/-- C10 (amended): the per-element overrides are taken whenever the
attribute is truthy — any non-empty string, including `"0"`; only a
missing or empty-string attribute falls back to the global defaults 800
and 0.8, so a zero override is expressible via `"0"`. -/
theorem loadOverrides_amended (v : Option String)
    (hfalsy : v = none ∨ v = some "") :
    loadMaxWidth v = some 800 ∧ loadQuality v = some (4 / 5 : ℚ) ∧
    (∀ s, jsTruthy (some s) = true →
      loadMaxWidth (some s) = jsParseInt s ∧
      loadQuality (some s) = jsParseFloat s) ∧
    loadMaxWidth (some "0") = some 0 ∧ loadQuality (some "0") = some 0 := by
  refine ⟨?_, ?_, ?_, by decide,
    by simp [loadQuality, jsTruthy, jsParseFloat, digitsVal]⟩
  · rcases hfalsy with rfl | rfl <;> decide
  · rcases hfalsy with rfl | rfl <;>
      · simp [loadQuality, jsTruthy, jsParseFloat, digitsVal]
        norm_num
  · intro s hs
    constructor
    · simp [loadMaxWidth, hs]
    · simp [loadQuality, hs]

/-- Witness for C10 (amended) at a missing attribute (falls back to 800
and 0.8) and at the truthy attribute `"0"` (resolves to 0). -/
theorem loadOverrides_amended_witness :
    ((none : Option String) = none ∨ (none : Option String) = some "") ∧
    loadMaxWidth none = some 800 ∧
    loadQuality none = some (4 / 5 : ℚ) ∧
    loadMaxWidth (some "0") = some 0 := by
  have h := loadOverrides_amended none (Or.inl rfl)
  exact ⟨Or.inl rfl, h.1, h.2.1, h.2.2.2.1⟩

end Script
